import Mathlib

/-!
Verification of the issue-webhook reconciliation engine of this repository
(`backend/controller/github.py`): the entity data model, the field-level diff
over stored records, the reply-label decision, the reconciliation step
`save_issue_to_database`, and the top-level webhook handler
`github_webhook_issues`.

Code present in the repository source is embedded faithfully; repository code
referenced from `github.py` but not shipped with it (the `Issue` model fields,
`diff_and_get_changed_fields`, `PROTECTED_FIELDS`, `config.REPLY_LABEL`, and
the abstract keyed-table collaborator) is modelled from the specification and
marked as such.
-/

set_option autoImplicit false

namespace Tiara

/-- A label descriptor: a name plus metadata (here the color), as decoded by
`Issue.get_labels_list`. -/
structure Label where
  name : String
  color : String
deriving DecidableEq

/-- A user descriptor, as decoded by `Issue.get_assignees_list`. -/
structure User where
  login : String
deriving DecidableEq

/-- Modelled from the spec: the canonical `Issue` entity of the data model
(`backend/model/issue.py` is not shipped). Fields are those `github.py`
reads, plus the creation timestamp named by the spec as a protected field.
`labels = none` (resp. `assignees = none`) models a falsy raw field, whose
truthiness the handler tests before decoding; `some l` models a truthy field
decoding to the list `l`. -/
structure Issue where
  github_issue_id : Nat
  github_issue_number : Nat
  repository_name : String
  title : String
  author_login : String
  state : String
  labels : Option (List Label)
  assignees : Option (List User)
  created_at : String
deriving DecidableEq

/-- The names of the fields of `Issue`, for field-level diffing. -/
inductive FieldName where
  | github_issue_id
  | github_issue_number
  | repository_name
  | title
  | author_login
  | state
  | labels
  | assignees
  | created_at
deriving DecidableEq, Fintype

/-- All field names of `Issue`. -/
def allFields : List FieldName :=
  [FieldName.github_issue_id, FieldName.github_issue_number,
   FieldName.repository_name, FieldName.title, FieldName.author_login,
   FieldName.state, FieldName.labels, FieldName.assignees,
   FieldName.created_at]

/-- Modelled from the spec: `PROTECTED_FIELDS`
(`backend/model/init_database.py` is not shipped) — "a fixed subset of
attributes (e.g., identifiers, creation timestamp) that must never be
overwritten by an update diff". -/
def PROTECTED_FIELDS : List FieldName :=
  [FieldName.github_issue_id, FieldName.created_at]

/-- Value equality of one field between two records. -/
def fieldEq : FieldName → Issue → Issue → Bool
  | FieldName.github_issue_id, a, b => decide (a.github_issue_id = b.github_issue_id)
  | FieldName.github_issue_number, a, b => decide (a.github_issue_number = b.github_issue_number)
  | FieldName.repository_name, a, b => decide (a.repository_name = b.repository_name)
  | FieldName.title, a, b => decide (a.title = b.title)
  | FieldName.author_login, a, b => decide (a.author_login = b.author_login)
  | FieldName.state, a, b => decide (a.state = b.state)
  | FieldName.labels, a, b => decide (a.labels = b.labels)
  | FieldName.assignees, a, b => decide (a.assignees = b.assignees)
  | FieldName.created_at, a, b => decide (a.created_at = b.created_at)

/-- Copy field `f` of `src` into `dst` (one entry of the changed-field map
being applied). -/
def setField : FieldName → Issue → Issue → Issue
  | FieldName.github_issue_id, dst, src => { dst with github_issue_id := src.github_issue_id }
  | FieldName.github_issue_number, dst, src => { dst with github_issue_number := src.github_issue_number }
  | FieldName.repository_name, dst, src => { dst with repository_name := src.repository_name }
  | FieldName.title, dst, src => { dst with title := src.title }
  | FieldName.author_login, dst, src => { dst with author_login := src.author_login }
  | FieldName.state, dst, src => { dst with state := src.state }
  | FieldName.labels, dst, src => { dst with labels := src.labels }
  | FieldName.assignees, dst, src => { dst with assignees := src.assignees }
  | FieldName.created_at, dst, src => { dst with created_at := src.created_at }

/-- Apply a changed-field map (field names, values drawn from `src`) to `dst`. -/
def applyFields (fs : List FieldName) (dst src : Issue) : Issue :=
  fs.foldl (fun acc f => setField f acc src) dst

/-- Modelled from the spec: `diff_and_get_changed_fields`
(`backend/model/init_database.py` is not shipped) — for every field of
`Issue` except those in `PROTECTED_FIELDS`, compare previous vs incoming by
value equality; fields that differ make up the result map, with the incoming
value. -/
def diff_and_get_changed_fields (previous incoming : Issue) : List FieldName :=
  allFields.filter
    (fun f => decide (f ∉ PROTECTED_FIELDS) && !(fieldEq f previous incoming))

/-- Modelled from the spec: `config.REPLY_LABEL` (`backend/config.py` is not
shipped) — the designated reply-trigger label name; the spec's examples use
"needs-reply". -/
def REPLY_LABEL : String := "needs-reply"

/-- The label-membership test of `save_issue_to_database`: a falsy `labels`
field yields `false`, a truthy one is decoded and scanned for a label whose
name is `REPLY_LABEL`
(`any(label.get('name') == config.REPLY_LABEL for label in ...)`). -/
def hasReplyLabel : Option (List Label) → Bool
  | none => false
  | some l => l.any (fun lab => decide (lab.name = REPLY_LABEL))

/-- The label names of a possibly-falsy labels field, as a list. -/
def labelNames (o : Option (List Label)) : List String :=
  (o.getD []).map Label.name

/-- The table operations of the abstract keyed-table collaborator. -/
inductive DbOp where
  | openT
  | getOp
  | insertOp
  | updateOp
deriving DecidableEq

/-- Errors raised by table operations (any of them surfaces as a persistence
error). -/
inductive DbError where
  | openFailed
  | getFailed
  | insertFailed
  | updateFailed
deriving DecidableEq

/-- Modelled from the spec: the abstract keyed table (`backend/model/base` is
not shipped), as rows keyed by `github_issue_id` plus a fault set naming the
operations that raise on this event. A failing operation mutates nothing. -/
structure Db where
  rows : List (Nat × Issue)
  failing : List DbOp
deriving DecidableEq

/-- Whether table operation `op` raises on this event. -/
def Db.opFails (db : Db) (op : DbOp) : Bool :=
  db.failing.contains op

/-- First row with the given key, if any. -/
def lookupRow : List (Nat × Issue) → Nat → Option Issue
  | [], _ => none
  | p :: rest, id => if p.1 = id then some p.2 else lookupRow rest id

/-- `Table.get`: look up a record by `github_issue_id`. -/
def Db.getRow (db : Db) (id : Nat) : Option Issue :=
  lookupRow db.rows id

/-- Modelled from the spec: `Table.insert` — keyed insertion whose policy on a
pre-existing key is "treat as update instead of failing" (the record under
that key is replaced, no duplicate row and no error). -/
def Db.insertRow (db : Db) (i : Issue) : Db :=
  { db with
    rows := (i.github_issue_id, i) ::
      db.rows.filter (fun p => !(decide (p.1 = i.github_issue_id))) }

/-- `Table.update`: apply the changed-field map (values from `src`) to every
row whose key satisfies the predicate `github_issue_id = id`. -/
def Db.updateRows (db : Db) (fs : List FieldName) (id : Nat) (src : Issue) : Db :=
  { db with
    rows := db.rows.map
      (fun p => if p.1 = id then (p.1, applyFields fs p.2 src) else p) }

/-- The reconciliation step `save_issue_to_database` of
`backend/controller/github.py`: open the table; on `action == 'opened'`
insert and report whether the reply label is present; otherwise look up the
record, decide the reply from the absent-to-present transition, then either
apply the non-empty diff as an update, skip the write on an empty diff, or
insert when the record was not found. Table exceptions propagate. -/
def save_issue_to_database (db : Db) (issue : Issue) (action : String) :
    Except DbError (Db × Bool) :=
  if db.opFails DbOp.openT then Except.error DbError.openFailed
  else if action = "opened" then
    if db.opFails DbOp.insertOp then Except.error DbError.insertFailed
    else Except.ok (db.insertRow issue, hasReplyLabel issue.labels)
  else if db.opFails DbOp.getOp then Except.error DbError.getFailed
  else
    match db.getRow issue.github_issue_id with
    | some existing_issue =>
        if (diff_and_get_changed_fields existing_issue issue).isEmpty then
          Except.ok (db, hasReplyLabel issue.labels && !(hasReplyLabel existing_issue.labels))
        else if db.opFails DbOp.updateOp then Except.error DbError.updateFailed
        else
          Except.ok
            (db.updateRows (diff_and_get_changed_fields existing_issue issue)
              issue.github_issue_id issue,
             hasReplyLabel issue.labels && !(hasReplyLabel existing_issue.labels))
    | none =>
        if db.opFails DbOp.insertOp then Except.error DbError.insertFailed
        else Except.ok (db.insertRow issue, hasReplyLabel issue.labels)

/-- The handler's result record: a status, a human-readable message, and the
HTTP status code the transport pairs with it. -/
structure Outcome where
  status : String
  message : String
  httpStatus : Nat
deriving DecidableEq

/-- Message of a persistence error, standing in for Python's `str(e)`. -/
def dbErrMsg : DbError → String
  | DbError.openFailed => "open table failed"
  | DbError.getFailed => "get failed"
  | DbError.insertFailed => "insert failed"
  | DbError.updateFailed => "update failed"

/-- The external collaborators of one event: the similarity search (fallible,
returning abstract similar-issue handles), the comment decision, and the
comment send. `Except.error` models the collaborator raising. -/
structure Collaborators where
  search_similar_issues : Except String (List Nat)
  should_send_comment : String → Issue → List Nat → Except String Bool
  send_issue_comment : Issue → List Nat → Except String Unit

/-- The webhook handler `github_webhook_issues` of
`backend/controller/github.py`, for one event. `mapRes` is the result of
`Issue.from_webhook_payload` (raising on a malformed payload). Control flow
follows the source: mapper or persistence exceptions reach the outer handler
and yield the error outcome; a false reply decision returns the skip outcome
before any collaborator runs; a similarity-search exception is caught by the
inner handler, but then `similar_issues` was never assigned, so evaluating
the arguments of `should_send_comment` raises `NameError`, which the outer
handler turns into the error outcome; exceptions of the comment collaborators
reach the outer handler directly. The second component is the table state
after the event. -/
def github_webhook_issues (db : Db) (mapRes : Except String Issue)
    (action : String) (c : Collaborators) : Outcome × Db :=
  match mapRes with
  | Except.error e => (⟨"error", e, 500⟩, db)
  | Except.ok issue =>
    match save_issue_to_database db issue action with
    | Except.error e => (⟨"error", dbErrMsg e, 500⟩, db)
    | Except.ok (db1, should_reply) =>
      if !should_reply then
        (⟨"success", "Issue skipped (not marked for reply)", 200⟩, db1)
      else
        match c.search_similar_issues with
        | Except.error _ =>
            (⟨"error", "NameError: similar_issues is not defined", 500⟩, db1)
        | Except.ok similar_issues =>
          match c.should_send_comment action issue similar_issues with
          | Except.error e => (⟨"error", e, 500⟩, db1)
          | Except.ok true =>
            match c.send_issue_comment issue similar_issues with
            | Except.error e => (⟨"error", e, 500⟩, db1)
            | Except.ok _ => (⟨"success", "Issues webhook processed", 200⟩, db1)
          | Except.ok false =>
              (⟨"success", "Issues webhook processed", 200⟩, db1)

/-! ### Concrete fixtures for witnesses and counterexample evaluation -/

/-- The reply-trigger label. -/
def replyLabel : Label := ⟨"needs-reply", "d73a4a"⟩

/-- An unrelated label. -/
def bugLabel : Label := ⟨"bug", "ee0701"⟩

/-- A stored record without the reply label. -/
def storedNoReply : Issue :=
  ⟨42, 7, "hawkingrei/tiara", "panic on startup", "alice", "open",
   some [bugLabel], none, "2024-01-01"⟩

/-- An incoming record: the reply label newly added, a protected field
changed. -/
def incomingWithReply : Issue :=
  ⟨42, 7, "hawkingrei/tiara", "panic on startup", "alice", "open",
   some [bugLabel, replyLabel], none, "2024-02-02"⟩

/-- An incoming record with the same labels as `incomingWithReply` but every
other field different. -/
def incomingVariant : Issue :=
  ⟨42, 8, "other/repo", "renamed title", "bob", "closed",
   some [bugLabel, replyLabel], some [⟨"carol"⟩], "2030-01-01"⟩

/-- An incoming record whose labels field is falsy. -/
def incomingNoLabels : Issue :=
  ⟨42, 7, "hawkingrei/tiara", "panic on startup", "alice", "open",
   none, none, "2024-01-01"⟩

/-- A record differing from `storedNoReply` only in protected fields. -/
def protTwin : Issue :=
  ⟨43, 7, "hawkingrei/tiara", "panic on startup", "alice", "open",
   some [bugLabel], none, "1999-12-31"⟩

/-- A stored record whose labels attribute is falsy. -/
def storedNoLabels : Issue :=
  ⟨77, 9, "hawkingrei/tiara", "question", "dave", "open",
   none, none, "2024-03-03"⟩

/-- An incoming record for issue 77 that adds the reply label. -/
def incoming77 : Issue :=
  ⟨77, 9, "hawkingrei/tiara", "question", "dave", "open",
   some [replyLabel], none, "2024-03-03"⟩

/-- An empty, fault-free table. -/
def dbEmpty : Db := ⟨[], []⟩

/-- A fault-free table holding `storedNoReply`. -/
def dbOne : Db := ⟨[(42, storedNoReply)], []⟩

/-- A fault-free table holding `storedNoLabels`. -/
def dbTwo : Db := ⟨[(77, storedNoLabels)], []⟩

/-- A table whose `open` operation raises on this event. -/
def dbFailOpen : Db := ⟨[(42, storedNoReply)], [DbOp.openT]⟩

/-- `dbOne` after the update applied by delivering `incomingWithReply`. -/
def dbOneUpdated : Db :=
  dbOne.updateRows (diff_and_get_changed_fields storedNoReply incomingWithReply)
    42 incomingWithReply

/-- `dbTwo` after the update applied by delivering `incoming77`. -/
def dbTwoUpdated : Db :=
  dbTwo.updateRows (diff_and_get_changed_fields storedNoLabels incoming77)
    77 incoming77

/-- Collaborators that all succeed (and decide not to comment). -/
def okCollaborators : Collaborators :=
  ⟨Except.ok [], fun _ _ _ => Except.ok false, fun _ _ => Except.ok ()⟩

/-- Collaborators where the similarity search raises. -/
def searchFailureCollaborators : Collaborators :=
  ⟨Except.error "search raised", fun _ _ _ => Except.ok true,
   fun _ _ => Except.ok ()⟩

/-- Collaborators where the comment send raises. -/
def sendFailureCollaborators : Collaborators :=
  ⟨Except.ok [], fun _ _ _ => Except.ok true,
   fun _ _ => Except.error "send raised"⟩

/-! ### Field-level lemmas about `setField`, `applyFields` and the diff -/

theorem fieldEq_refl (f : FieldName) (a : Issue) : fieldEq f a a = true := by
  cases f <;> simp [fieldEq]

theorem fieldEq_setField_self (f : FieldName) (dst src : Issue) :
    fieldEq f (setField f dst src) src = true := by
  cases f <;> simp [fieldEq, setField]

theorem fieldEq_setField_other (f g : FieldName) (h : f ≠ g) (dst src y : Issue) :
    fieldEq f (setField g dst src) y = fieldEq f dst y := by
  cases f <;> cases g <;> first
    | exact absurd rfl h
    | simp [fieldEq, setField]

theorem applyFields_nil (dst src : Issue) : applyFields [] dst src = dst := rfl

theorem applyFields_cons (g : FieldName) (fs : List FieldName) (dst src : Issue) :
    applyFields (g :: fs) dst src = applyFields fs (setField g dst src) src := rfl

theorem fieldEq_applyFields_not_mem (f : FieldName) (fs : List FieldName)
    (h : f ∉ fs) (dst src y : Issue) :
    fieldEq f (applyFields fs dst src) y = fieldEq f dst y := by
  induction fs generalizing dst with
  | nil => rfl
  | cons g rest ih =>
      rw [applyFields_cons, ih (fun hf => h (List.mem_cons_of_mem g hf)),
        fieldEq_setField_other f g (fun hfg => h (hfg ▸ List.mem_cons_self g rest))]

theorem fieldEq_applyFields_mem (f : FieldName) (fs : List FieldName)
    (h : f ∈ fs) (dst src : Issue) :
    fieldEq f (applyFields fs dst src) src = true := by
  induction fs generalizing dst with
  | nil => cases h
  | cons g rest ih =>
      rw [applyFields_cons]
      by_cases hr : f ∈ rest
      · exact ih hr (setField g dst src)
      · have hfg : f = g := by
          cases List.mem_cons.mp h with
          | inl h1 => exact h1
          | inr h2 => exact absurd h2 hr
        subst hfg
        rw [fieldEq_applyFields_not_mem f rest hr, fieldEq_setField_self]

theorem mem_allFields (f : FieldName) : f ∈ allFields := by
  cases f <;> simp [allFields]

theorem mem_diff_iff (p i : Issue) (f : FieldName) :
    f ∈ diff_and_get_changed_fields p i ↔
      f ∉ PROTECTED_FIELDS ∧ fieldEq f p i = false := by
  simp only [diff_and_get_changed_fields, List.mem_filter, mem_allFields,
    true_and, Bool.and_eq_true, Bool.not_eq_true', decide_eq_true_eq]

theorem diff_eq_nil_iff (p i : Issue) :
    diff_and_get_changed_fields p i = [] ↔
      ∀ f : FieldName, f ∉ PROTECTED_FIELDS → fieldEq f p i = true := by
  constructor
  · intro h f hf
    by_contra hne
    have : f ∈ diff_and_get_changed_fields p i :=
      (mem_diff_iff p i f).mpr ⟨hf, Bool.eq_false_iff.mpr (by simpa using hne)⟩
    rw [h] at this
    cases this
  · intro h
    cases hd : diff_and_get_changed_fields p i with
    | nil => rfl
    | cons f rest =>
        have hf : f ∈ diff_and_get_changed_fields p i := by
          rw [hd]; exact List.mem_cons_self f rest
        rcases (mem_diff_iff p i f).mp hf with ⟨hnp, hne⟩
        rw [h f hnp] at hne
        cases hne

theorem mem_diff_not_protected (p i : Issue) (f : FieldName)
    (h : f ∈ diff_and_get_changed_fields p i) : f ∉ PROTECTED_FIELDS :=
  ((mem_diff_iff p i f).mp h).1

/-- Applying the diff to the previous record makes every non-protected field
equal to the incoming record's. -/
theorem fieldEq_after_patch (p i : Issue) (f : FieldName)
    (hf : f ∉ PROTECTED_FIELDS) :
    fieldEq f (applyFields (diff_and_get_changed_fields p i) p i) i = true := by
  by_cases hm : f ∈ diff_and_get_changed_fields p i
  · exact fieldEq_applyFields_mem f _ hm p i
  · rw [fieldEq_applyFields_not_mem f _ hm p i]
    by_contra hne
    exact hm ((mem_diff_iff p i f).mpr ⟨hf, Bool.eq_false_iff.mpr (by simpa using hne)⟩)

/-- Re-diffing after applying the diff yields the empty map. -/
theorem diff_after_patch (p i : Issue) :
    diff_and_get_changed_fields
      (applyFields (diff_and_get_changed_fields p i) p i) i = [] :=
  (diff_eq_nil_iff _ i).mpr (fun f hf => fieldEq_after_patch p i f hf)

theorem labels_eq_of_fieldEq (a b : Issue)
    (h : fieldEq FieldName.labels a b = true) : a.labels = b.labels := by
  simpa [fieldEq] using h

/-- The patched record carries the incoming labels field. -/
theorem labels_after_patch (p i : Issue) :
    (applyFields (diff_and_get_changed_fields p i) p i).labels = i.labels :=
  labels_eq_of_fieldEq _ i
    (fieldEq_after_patch p i FieldName.labels (by simp [PROTECTED_FIELDS]))

theorem applyFields_github_issue_id (fs : List FieldName)
    (h : FieldName.github_issue_id ∉ fs) (dst src : Issue) :
    (applyFields fs dst src).github_issue_id = dst.github_issue_id := by
  have := fieldEq_applyFields_not_mem FieldName.github_issue_id fs h dst src dst
  rw [fieldEq_refl] at this
  simpa [fieldEq] using this.symm

theorem applyFields_created_at (fs : List FieldName)
    (h : FieldName.created_at ∉ fs) (dst src : Issue) :
    (applyFields fs dst src).created_at = dst.created_at := by
  have := fieldEq_applyFields_not_mem FieldName.created_at fs h dst src dst
  rw [fieldEq_refl] at this
  simpa [fieldEq] using this.symm

/-! ### Lemmas about the keyed table -/

theorem lookupRow_nil (k : Nat) : lookupRow [] k = none := rfl

theorem lookupRow_cons (p : Nat × Issue) (rest : List (Nat × Issue)) (k : Nat) :
    lookupRow (p :: rest) k = if p.1 = k then some p.2 else lookupRow rest k := rfl

theorem lookupRow_filter_ne (rows : List (Nat × Issue)) (id k : Nat) (h : k ≠ id) :
    lookupRow (rows.filter (fun p => !(decide (p.1 = id)))) k = lookupRow rows k := by
  induction rows with
  | nil => rfl
  | cons p rest ih =>
      by_cases hp : p.1 = id
      · have hik : ¬(id = k) := fun hik => h hik.symm
        simp [List.filter_cons, hp, lookupRow_cons, hik, ih]
      · simp [List.filter_cons, hp, lookupRow_cons, ih]

theorem getRow_insertRow_self (db : Db) (i : Issue) :
    (db.insertRow i).getRow i.github_issue_id = some i := by
  simp [Db.insertRow, Db.getRow, lookupRow_cons]

theorem getRow_insertRow_other (db : Db) (i : Issue) (k : Nat)
    (h : k ≠ i.github_issue_id) :
    (db.insertRow i).getRow k = db.getRow k := by
  have hik : ¬(i.github_issue_id = k) := fun hik => h hik.symm
  simp [Db.insertRow, Db.getRow, lookupRow_cons, hik,
    lookupRow_filter_ne db.rows i.github_issue_id k h]

theorem lookupRow_map_update_self (rows : List (Nat × Issue)) (id : Nat)
    (g : Issue → Issue) (v : Issue) (h : lookupRow rows id = some v) :
    lookupRow (rows.map (fun p => if p.1 = id then (p.1, g p.2) else p)) id =
      some (g v) := by
  induction rows with
  | nil => cases h
  | cons p rest ih =>
      rw [lookupRow_cons] at h
      by_cases hp : p.1 = id
      · rw [if_pos hp] at h
        injection h with hv
        simp [List.map_cons, hp, lookupRow_cons, hv]
      · rw [if_neg hp] at h
        simp [List.map_cons, hp, lookupRow_cons, ih h]

theorem lookupRow_map_update_other (rows : List (Nat × Issue)) (id k : Nat)
    (g : Issue → Issue) (h : k ≠ id) :
    lookupRow (rows.map (fun p => if p.1 = id then (p.1, g p.2) else p)) k =
      lookupRow rows k := by
  induction rows with
  | nil => rfl
  | cons p rest ih =>
      by_cases hp : p.1 = id
      · have hik : ¬(id = k) := fun hik => h hik.symm
        simp [List.map_cons, hp, lookupRow_cons, hik, ih]
      · simp [List.map_cons, hp, lookupRow_cons, ih]

theorem getRow_updateRows_self (db : Db) (fs : List FieldName) (id : Nat)
    (src : Issue) (v : Issue) (h : db.getRow id = some v) :
    (db.updateRows fs id src).getRow id = some (applyFields fs v src) :=
  lookupRow_map_update_self db.rows id (fun w => applyFields fs w src) v h

theorem getRow_updateRows_other (db : Db) (fs : List FieldName) (id : Nat)
    (src : Issue) (k : Nat) (h : k ≠ id) :
    (db.updateRows fs id src).getRow k = db.getRow k :=
  lookupRow_map_update_other db.rows id k (fun w => applyFields fs w src) h

theorem opFails_insertRow (db : Db) (i : Issue) (op : DbOp) :
    (db.insertRow i).opFails op = db.opFails op := rfl

theorem opFails_updateRows (db : Db) (fs : List FieldName) (id : Nat)
    (src : Issue) (op : DbOp) :
    (db.updateRows fs id src).opFails op = db.opFails op := rfl

/-! ### Characterization of the reconciliation step -/

/-- Any successful run of `save_issue_to_database` took one of the three
paths: the creation path (`action == 'opened'`), the backfill-insert path
(record not found), or the found-update path. -/
theorem save_ok_cases (db : Db) (issue : Issue) (action : String)
    (db1 : Db) (b : Bool)
    (hok : save_issue_to_database db issue action = Except.ok (db1, b)) :
    (action = "opened" ∧ db1 = db.insertRow issue ∧
      b = hasReplyLabel issue.labels) ∨
    (action ≠ "opened" ∧ db.getRow issue.github_issue_id = none ∧
      db1 = db.insertRow issue ∧ b = hasReplyLabel issue.labels) ∨
    (∃ stored, action ≠ "opened" ∧
      db.getRow issue.github_issue_id = some stored ∧
      b = (hasReplyLabel issue.labels && !(hasReplyLabel stored.labels)) ∧
      db1 = (if (diff_and_get_changed_fields stored issue).isEmpty then db
             else db.updateRows (diff_and_get_changed_fields stored issue)
               issue.github_issue_id issue)) := by
  unfold save_issue_to_database at hok
  by_cases hopen : db.opFails DbOp.openT
  · simp [hopen] at hok
  by_cases hact : action = "opened"
  · by_cases hins : db.opFails DbOp.insertOp
    · simp [hopen, hact, hins] at hok
    · simp only [hopen, hact, hins, if_true, if_false, Bool.false_eq_true,
        ite_false, ite_true, Except.ok.injEq, Prod.mk.injEq] at hok
      exact Or.inl ⟨hact, hok.1.symm, hok.2.symm⟩
  by_cases hget : db.opFails DbOp.getOp
  · simp [hopen, hact, hget] at hok
  cases hfound : db.getRow issue.github_issue_id with
  | none =>
      by_cases hins : db.opFails DbOp.insertOp
      · simp [hopen, hact, hget, hfound, hins] at hok
      · simp only [hopen, hact, hget, hfound, hins, Bool.false_eq_true,
          ite_false, ite_true, Except.ok.injEq, Prod.mk.injEq] at hok
        exact Or.inr (Or.inl ⟨hact, rfl, hok.1.symm, hok.2.symm⟩)
  | some stored =>
      by_cases hdiff : (diff_and_get_changed_fields stored issue).isEmpty
      · simp only [hopen, hact, hget, hfound, hdiff, Bool.false_eq_true,
          ite_false, ite_true, Except.ok.injEq, Prod.mk.injEq] at hok
        refine Or.inr (Or.inr ⟨stored, hact, rfl, hok.2.symm, ?_⟩)
        rw [if_pos hdiff]
        exact hok.1.symm
      · by_cases hupd : db.opFails DbOp.updateOp
        · simp [hopen, hact, hget, hfound, hdiff, hupd] at hok
        · simp only [hopen, hact, hget, hfound, hdiff, hupd,
            Bool.false_eq_true, ite_false, ite_true, Except.ok.injEq,
            Prod.mk.injEq] at hok
          refine Or.inr (Or.inr ⟨stored, hact, rfl, hok.2.symm, ?_⟩)
          rw [if_neg hdiff]
          exact hok.1.symm

/-- On the found-update path, the reply decision of a successful run is the
absent-to-present test of the code. -/
theorem save_found_reply (db : Db) (issue : Issue) (action : String)
    (stored : Issue) (db1 : Db) (b : Bool)
    (hact : action ≠ "opened")
    (hfound : db.getRow issue.github_issue_id = some stored)
    (hok : save_issue_to_database db issue action = Except.ok (db1, b)) :
    b = (hasReplyLabel issue.labels && !(hasReplyLabel stored.labels)) := by
  rcases save_ok_cases db issue action db1 b hok with
    ⟨h1, _, _⟩ | ⟨_, h2, _, _⟩ | ⟨s, _, hs, hb, _⟩
  · exact absurd h1 hact
  · rw [hfound] at h2; cases h2
  · rw [hfound] at hs
    cases hs
    exact hb

/-- On the creation path (creation action, or record not found), the reply
decision of a successful run is presence of the reply label in the incoming
labels, and the incoming record was inserted. -/
theorem save_creation_reply (db : Db) (issue : Issue) (action : String)
    (db1 : Db) (b : Bool)
    (hcre : action = "opened" ∨ db.getRow issue.github_issue_id = none)
    (hok : save_issue_to_database db issue action = Except.ok (db1, b)) :
    b = hasReplyLabel issue.labels ∧ db1 = db.insertRow issue := by
  rcases save_ok_cases db issue action db1 b hok with
    ⟨_, hdb, hb⟩ | ⟨_, _, hdb, hb⟩ | ⟨s, hact, hs, _, _⟩
  · exact ⟨hb, hdb⟩
  · exact ⟨hb, hdb⟩
  · cases hcre with
    | inl h => exact absurd h hact
    | inr h => rw [h] at hs; cases hs

/-- A successful run never went through a failing `open` operation. -/
theorem save_ok_open_not_failing (db : Db) (issue : Issue) (action : String)
    (r : Db × Bool)
    (hok : save_issue_to_database db issue action = Except.ok r) :
    db.opFails DbOp.openT = false := by
  by_contra h
  have h' : db.opFails DbOp.openT = true := by
    cases hb : db.opFails DbOp.openT with
    | false => exact absurd hb h
    | true => rfl
  unfold save_issue_to_database at hok
  simp [h'] at hok

/-- A successful run on a non-creation action never went through a failing
`get` operation. -/
theorem save_ok_get_not_failing (db : Db) (issue : Issue) (action : String)
    (r : Db × Bool) (hact : action ≠ "opened")
    (hok : save_issue_to_database db issue action = Except.ok r) :
    db.opFails DbOp.getOp = false := by
  have hopen := save_ok_open_not_failing db issue action r hok
  by_contra h
  have h' : db.opFails DbOp.getOp = true := by
    cases hb : db.opFails DbOp.getOp with
    | false => exact absurd hb h
    | true => rfl
  unfold save_issue_to_database at hok
  simp [hopen, hact, h'] at hok

/-- Forward computation: non-creation action, record found, empty diff —
no write happens and the decision is the absent-to-present test. -/
theorem save_found_empty_diff (db : Db) (issue : Issue) (action : String)
    (stored : Issue) (hact : action ≠ "opened")
    (hopen : db.opFails DbOp.openT = false)
    (hget : db.opFails DbOp.getOp = false)
    (hfound : db.getRow issue.github_issue_id = some stored)
    (hdiff : diff_and_get_changed_fields stored issue = []) :
    save_issue_to_database db issue action =
      Except.ok (db, hasReplyLabel issue.labels && !(hasReplyLabel stored.labels)) := by
  unfold save_issue_to_database
  simp [hopen, hact, hget, hfound, hdiff]

/-! ### The reply-label test as name-set membership -/

theorem hasReplyLabel_iff_mem (o : Option (List Label)) :
    hasReplyLabel o = true ↔ REPLY_LABEL ∈ labelNames o := by
  cases o with
  | none => simp [hasReplyLabel, labelNames]
  | some l =>
      simp only [hasReplyLabel, labelNames, Option.getD_some, List.any_eq_true,
        decide_eq_true_eq, List.mem_map]

theorem hasReplyLabel_eq_false_iff (o : Option (List Label)) :
    hasReplyLabel o = false ↔ REPLY_LABEL ∉ labelNames o := by
  rw [← hasReplyLabel_iff_mem o]
  cases hasReplyLabel o <;> simp

/-- An empty diff forces equal labels fields (labels is not protected). -/
theorem labels_eq_of_diff_nil (p i : Issue)
    (h : diff_and_get_changed_fields p i = []) : p.labels = i.labels :=
  labels_eq_of_fieldEq p i
    ((diff_eq_nil_iff p i).mp h FieldName.labels (by simp [PROTECTED_FIELDS]))

/-! ### The claims -/

/-- C1: the claim says an exception from the similarity-search collaborator or
from the comment-deciding/comment-sending collaborators never produces an
error outcome after a successful persistence with a true reply decision. The
code disagrees: on this event persistence succeeds with a true reply
decision, yet a raising search collaborator leaves `similar_issues` unbound
so the later reference raises and the outer handler returns the error
outcome, and a raising send collaborator reaches the outer handler directly
with the same result. -/
theorem c1_enrichment_exception_produces_error_outcome :
    (∃ db1, save_issue_to_database dbOne incomingWithReply "labeled" =
      Except.ok (db1, true)) ∧
    (github_webhook_issues dbOne (Except.ok incomingWithReply) "labeled"
      searchFailureCollaborators).1.status = "error" ∧
    (github_webhook_issues dbOne (Except.ok incomingWithReply) "labeled"
      sendFailureCollaborators).1.status = "error" :=
  ⟨⟨dbOneUpdated, rfl⟩, rfl, rfl⟩

/-- C2: on a non-creation event whose issue id is found, the reply decision
is true iff the reply-trigger label name is among the incoming label names
and not among the stored record's label names. -/
theorem c2_update_reply_iff_absent_to_present (db : Db) (issue : Issue)
    (action : String) (stored : Issue) (db1 : Db) (b : Bool)
    (hact : action ≠ "opened")
    (hfound : db.getRow issue.github_issue_id = some stored)
    (hok : save_issue_to_database db issue action = Except.ok (db1, b)) :
    b = true ↔ (REPLY_LABEL ∈ labelNames issue.labels ∧
      REPLY_LABEL ∉ labelNames stored.labels) := by
  rw [save_found_reply db issue action stored db1 b hact hfound hok,
    Bool.and_eq_true, Bool.not_eq_true', hasReplyLabel_iff_mem,
    hasReplyLabel_eq_false_iff]

/-- Witness for C2: a strict absent-to-present transition yields true. -/
theorem c2_witness :
    true = true ↔ (REPLY_LABEL ∈ labelNames incomingWithReply.labels ∧
      REPLY_LABEL ∉ labelNames storedNoReply.labels) :=
  c2_update_reply_iff_absent_to_present dbOne incomingWithReply "labeled"
    storedNoReply dbOneUpdated true (by decide) rfl rfl

/-- C3: on the creation path — creation action, or id not found — the issue
is inserted and the reply decision is presence of the trigger label in the
incoming labels. -/
theorem c3_creation_path_insert_and_reply (db : Db) (issue : Issue)
    (action : String) (db1 : Db) (b : Bool)
    (hcre : action = "opened" ∨
      (action ≠ "opened" ∧ db.getRow issue.github_issue_id = none))
    (hok : save_issue_to_database db issue action = Except.ok (db1, b)) :
    (b = true ↔ REPLY_LABEL ∈ labelNames issue.labels) ∧
    db1.getRow issue.github_issue_id = some issue := by
  rcases save_creation_reply db issue action db1 b
    (hcre.imp_right And.right) hok with ⟨hb, hdb⟩
  constructor
  · rw [hb, hasReplyLabel_iff_mem]
  · rw [hdb]
    exact getRow_insertRow_self db issue

/-- Witness for C3: a first-seen opened event inserts and replies. -/
theorem c3_witness :
    (true = true ↔ REPLY_LABEL ∈ labelNames incomingWithReply.labels) ∧
    (dbEmpty.insertRow incomingWithReply).getRow
      incomingWithReply.github_issue_id = some incomingWithReply :=
  c3_creation_path_insert_and_reply dbEmpty incomingWithReply "opened"
    (dbEmpty.insertRow incomingWithReply) true (Or.inl rfl) rfl

/-- C4: on a non-creation event whose id is found, a write happens iff the
diff is non-empty, and re-delivering the identical event succeeds with no
write, an unchanged table, and a false reply decision. -/
theorem c4_idempotent_redelivery (db : Db) (issue : Issue) (action : String)
    (stored : Issue) (db1 : Db) (b1 : Bool)
    (hact : action ≠ "opened")
    (hfound : db.getRow issue.github_issue_id = some stored)
    (hok : save_issue_to_database db issue action = Except.ok (db1, b1)) :
    (diff_and_get_changed_fields stored issue = [] → db1 = db) ∧
    db1 = (if (diff_and_get_changed_fields stored issue).isEmpty then db
           else db.updateRows (diff_and_get_changed_fields stored issue)
             issue.github_issue_id issue) ∧
    save_issue_to_database db1 issue action = Except.ok (db1, false) := by
  have hopen := save_ok_open_not_failing db issue action (db1, b1) hok
  have hget := save_ok_get_not_failing db issue action (db1, b1) hact hok
  rcases save_ok_cases db issue action db1 b1 hok with
    ⟨h1, _, _⟩ | ⟨_, h2, _, _⟩ | ⟨s, _, hs, _, hdb1⟩
  · exact absurd h1 hact
  · rw [hfound] at h2; cases h2
  · rw [hfound] at hs
    cases hs
    refine ⟨?_, hdb1, ?_⟩
    · intro hnil
      rw [hdb1, hnil]
      rfl
    · by_cases hnil : diff_and_get_changed_fields stored issue = []
      · have hdb1' : db1 = db := by
          rw [hdb1, hnil]; rfl
        have hlab := labels_eq_of_diff_nil stored issue hnil
        have := save_found_empty_diff db issue action stored hact hopen hget
          hfound hnil
        rw [hdb1', this, hlab, Bool.and_not_self]
      · have hne : (diff_and_get_changed_fields stored issue).isEmpty = false := by
          cases hd : diff_and_get_changed_fields stored issue with
          | nil => exact absurd hd hnil
          | cons a l => rfl
        have hdb1' : db1 = db.updateRows
            (diff_and_get_changed_fields stored issue)
            issue.github_issue_id issue := by
          rw [hdb1, hne]
          simp
        have hfound1 : db1.getRow issue.github_issue_id =
            some (applyFields (diff_and_get_changed_fields stored issue)
              stored issue) := by
          rw [hdb1']
          exact getRow_updateRows_self db _ _ issue stored hfound
        have hdiff1 := diff_after_patch stored issue
        have hopen1 : db1.opFails DbOp.openT = false := by
          rw [hdb1', opFails_updateRows]; exact hopen
        have hget1 : db1.opFails DbOp.getOp = false := by
          rw [hdb1', opFails_updateRows]; exact hget
        have := save_found_empty_diff db1 issue action
          (applyFields (diff_and_get_changed_fields stored issue) stored issue)
          hact hopen1 hget1 hfound1 hdiff1
        rw [this, labels_after_patch, Bool.and_not_self]

/-- Witness for C4: delivering `incomingWithReply` to `dbOne` updates the
record; re-delivering it is a no-op with a false decision. -/
theorem c4_witness :
    (diff_and_get_changed_fields storedNoReply incomingWithReply = [] →
      dbOneUpdated = dbOne) ∧
    dbOneUpdated =
      (if (diff_and_get_changed_fields storedNoReply incomingWithReply).isEmpty
       then dbOne
       else dbOne.updateRows
         (diff_and_get_changed_fields storedNoReply incomingWithReply)
         incomingWithReply.github_issue_id incomingWithReply) ∧
    save_issue_to_database dbOneUpdated incomingWithReply "labeled" =
      Except.ok (dbOneUpdated, false) :=
  c4_idempotent_redelivery dbOne incomingWithReply "labeled" storedNoReply
    dbOneUpdated true (by decide) rfl rfl

/-- C5: a false reply decision makes the handler return the skip outcome at
once — its status is one of success, skipped, error — and the result is the
same whatever the collaborators would do, so none of them is invoked. -/
theorem c5_skip_outcome_before_collaborators (db : Db) (issue : Issue)
    (action : String) (db1 : Db)
    (hok : save_issue_to_database db issue action = Except.ok (db1, false)) :
    ∀ c : Collaborators,
      github_webhook_issues db (Except.ok issue) action c =
        (⟨"success", "Issue skipped (not marked for reply)", 200⟩, db1) ∧
      (github_webhook_issues db (Except.ok issue) action c).1.status ∈
        ["success", "skipped", "error"] := by
  intro c
  have h : github_webhook_issues db (Except.ok issue) action c =
      (⟨"success", "Issue skipped (not marked for reply)", 200⟩, db1) := by
    simp only [github_webhook_issues]
    rw [hok]
    rfl
  exact ⟨h, by rw [h]; simp⟩


/-- Witness for C5: re-delivering the stored record itself is skipped. -/
theorem c5_witness :
    github_webhook_issues dbOne (Except.ok storedNoReply) "edited"
        okCollaborators =
      (⟨"success", "Issue skipped (not marked for reply)", 200⟩, dbOne) ∧
    (github_webhook_issues dbOne (Except.ok storedNoReply) "edited"
        okCollaborators).1.status ∈ ["success", "skipped", "error"] :=
  c5_skip_outcome_before_collaborators dbOne storedNoReply "edited" dbOne rfl
    okCollaborators

/-- C6: a raising table operation makes the reconciliation step propagate an
error instead of a reply decision, and then the handler returns the error
outcome with the table untouched, whatever the collaborators would do — so
no search or comment is attempted. -/
theorem c6_persistence_error_propagates (db : Db) (issue : Issue)
    (action : String) :
    (db.opFails DbOp.openT = true →
      ∃ e, save_issue_to_database db issue action = Except.error e) ∧
    (∀ e, save_issue_to_database db issue action = Except.error e →
      ∀ c : Collaborators,
        github_webhook_issues db (Except.ok issue) action c =
          (⟨"error", dbErrMsg e, 500⟩, db)) := by
  constructor
  · intro h
    refine ⟨DbError.openFailed, ?_⟩
    unfold save_issue_to_database
    simp [h]
  · intro e he c
    simp only [github_webhook_issues]
    rw [he]

/-- Witness for C6: a failing `open` operation yields the error outcome. -/
theorem c6_witness :
    github_webhook_issues dbFailOpen (Except.ok incomingWithReply) "labeled"
        okCollaborators =
      (⟨"error", dbErrMsg DbError.openFailed, 500⟩, dbFailOpen) :=
  (c6_persistence_error_propagates dbFailOpen incomingWithReply "labeled").2
    DbError.openFailed rfl okCollaborators

/-- C7: the diff excludes every protected field; two records differing only in
protected fields have an empty diff; and the update path leaves the stored
record's protected fields unchanged whatever the incoming payload carries. -/
theorem c7_protected_fields_never_overwritten (p i : Issue) :
    (∀ f ∈ diff_and_get_changed_fields p i, f ∉ PROTECTED_FIELDS) ∧
    ((∀ f : FieldName, f ∉ PROTECTED_FIELDS → fieldEq f p i = true) →
      diff_and_get_changed_fields p i = []) ∧
    (∀ db action db1 b, action ≠ "opened" →
      db.getRow i.github_issue_id = some p →
      save_issue_to_database db i action = Except.ok (db1, b) →
      ∃ p1, db1.getRow i.github_issue_id = some p1 ∧
        p1.github_issue_id = p.github_issue_id ∧
        p1.created_at = p.created_at) := by
  refine ⟨fun f hf => mem_diff_not_protected p i f hf,
    fun h => (diff_eq_nil_iff p i).mpr h, ?_⟩
  intro db action db1 b hact hfound hok
  rcases save_ok_cases db i action db1 b hok with
    ⟨h1, _, _⟩ | ⟨_, h2, _, _⟩ | ⟨s, _, hs, _, hdb1⟩
  · exact absurd h1 hact
  · rw [hfound] at h2; cases h2
  · rw [hfound] at hs
    cases hs
    by_cases hnil : diff_and_get_changed_fields p i = []
    · refine ⟨p, ?_, rfl, rfl⟩
      rw [hdb1, hnil]
      exact hfound
    · have hne : (diff_and_get_changed_fields p i).isEmpty = false := by
        cases hd : diff_and_get_changed_fields p i with
        | nil => exact absurd hd hnil
        | cons a l => rfl
      have hdb1' : db1 = db.updateRows (diff_and_get_changed_fields p i)
          i.github_issue_id i := by
        rw [hdb1, hne]
        simp
      have hid : FieldName.github_issue_id ∉ diff_and_get_changed_fields p i :=
        fun hmem => (mem_diff_not_protected p i _ hmem) (by simp [PROTECTED_FIELDS])
      have hcr : FieldName.created_at ∉ diff_and_get_changed_fields p i :=
        fun hmem => (mem_diff_not_protected p i _ hmem) (by simp [PROTECTED_FIELDS])
      refine ⟨applyFields (diff_and_get_changed_fields p i) p i, ?_, ?_, ?_⟩
      · rw [hdb1']
        exact getRow_updateRows_self db _ _ i p hfound
      · exact applyFields_github_issue_id _ hid p i
      · exact applyFields_created_at _ hcr p i

/-- Witness for C7: records differing only in protected fields diff to the
empty map. -/
theorem c7_witness :
    diff_and_get_changed_fields storedNoReply protTwin = [] :=
  (c7_protected_fields_never_overwritten storedNoReply protTwin).2.1 (by decide)

/-- C8: a creation event for an id that already has a record succeeds, the
existing record is replaced by the incoming one, and every other key is
untouched — the duplicate creation acts as an update rather than a failure. -/
theorem c8_duplicate_opened_treated_as_update (db : Db) (issue old : Issue)
    (_hfound : db.getRow issue.github_issue_id = some old)
    (hopen : db.opFails DbOp.openT = false)
    (hins : db.opFails DbOp.insertOp = false) :
    ∃ b, save_issue_to_database db issue "opened" =
        Except.ok (db.insertRow issue, b) ∧
      (db.insertRow issue).getRow issue.github_issue_id = some issue ∧
      ∀ k, k ≠ issue.github_issue_id →
        (db.insertRow issue).getRow k = db.getRow k := by
  refine ⟨hasReplyLabel issue.labels, ?_, getRow_insertRow_self db issue,
    fun k hk => getRow_insertRow_other db issue k hk⟩
  unfold save_issue_to_database
  simp [hopen, hins]

/-- Witness for C8: a duplicate opened event for issue 42. -/
theorem c8_witness :
    ∃ b, save_issue_to_database dbOne incomingWithReply "opened" =
        Except.ok (dbOne.insertRow incomingWithReply, b) ∧
      (dbOne.insertRow incomingWithReply).getRow
        incomingWithReply.github_issue_id = some incomingWithReply ∧
      ∀ k, k ≠ incomingWithReply.github_issue_id →
        (dbOne.insertRow incomingWithReply).getRow k = dbOne.getRow k :=
  c8_duplicate_opened_treated_as_update dbOne incomingWithReply storedNoReply
    rfl rfl rfl

/-- C9: on the found-update path, the reply decision is a function of the
labels fields alone: two incoming records with the same labels, reconciled
against the same stored record under the same non-creation action, get the
same decision, whatever their other fields and whatever their diffs. -/
theorem c9_reply_depends_only_on_labels (db : Db) (action : String)
    (i1 i2 stored : Issue) (db1 db2 : Db) (b1 b2 : Bool)
    (hact : action ≠ "opened")
    (h1 : db.getRow i1.github_issue_id = some stored)
    (h2 : db.getRow i2.github_issue_id = some stored)
    (hlab : i1.labels = i2.labels)
    (hok1 : save_issue_to_database db i1 action = Except.ok (db1, b1))
    (hok2 : save_issue_to_database db i2 action = Except.ok (db2, b2)) :
    b1 = b2 := by
  rw [save_found_reply db i1 action stored db1 b1 hact h1 hok1,
    save_found_reply db i2 action stored db2 b2 hact h2 hok2, hlab]

/-- Witness for C9: `incomingVariant` differs from `incomingWithReply` in
every field except the labels, yet the decision agrees. -/
theorem c9_witness : true = true :=
  c9_reply_depends_only_on_labels dbOne "labeled" incomingWithReply
    incomingVariant storedNoReply dbOneUpdated
    (dbOne.updateRows
      (diff_and_get_changed_fields storedNoReply incomingVariant)
      incomingVariant.github_issue_id incomingVariant)
    true true (by decide) rfl rfl rfl rfl rfl

/-- C10: a falsy incoming labels field forces a false decision on every path,
and a falsy stored labels attribute counts as the trigger being previously
absent, so a present incoming trigger yields true on the update path. -/
theorem c10_falsy_labels_as_empty_set (db : Db) (issue : Issue)
    (action : String) :
    (issue.labels = none → ∀ db1 b,
      save_issue_to_database db issue action = Except.ok (db1, b) →
      b = false) ∧
    (∀ stored db1 b, action ≠ "opened" →
      db.getRow issue.github_issue_id = some stored →
      stored.labels = none → hasReplyLabel issue.labels = true →
      save_issue_to_database db issue action = Except.ok (db1, b) →
      b = true) := by
  constructor
  · intro hnone db1 b hok
    rcases save_ok_cases db issue action db1 b hok with
      ⟨_, _, hb⟩ | ⟨_, _, _, hb⟩ | ⟨s, _, _, hb, _⟩ <;>
      rw [hb, hnone] <;> simp [hasReplyLabel]
  · intro stored db1 b hact hfound hnone hhas hok
    rw [save_found_reply db issue action stored db1 b hact hfound hok,
      hnone, hhas]
    rfl

/-- Witness for C10: a falsy incoming labels field on a backfill insert is
skipped; a falsy stored labels attribute plus a present incoming trigger
replies. -/
theorem c10_witness : false = false ∧ true = true :=
  ⟨(c10_falsy_labels_as_empty_set dbEmpty incomingNoLabels "edited").1 rfl
      (dbEmpty.insertRow incomingNoLabels) false rfl,
   (c10_falsy_labels_as_empty_set dbTwo incoming77 "labeled").2 storedNoLabels
      dbTwoUpdated true (by decide) rfl rfl rfl rfl⟩

end Tiara
